import Mathlib

/-!
Shallow embedding of the Curvytron client-side `RoomRepository`
(src/client/repository/RoomRepository.js) together with the keyed
`Collection`, `Room` and `Player` collaborators it uses.  The repository
only ships `RoomRepository.js`; the collaborators are modelled from the
specification's §3/§4 contracts.  JavaScript reference mutation (a handler
mutating a `Room` or `Player` object held inside a collection) is made
explicit by replacing the element with the mutated value at its position.
-/

set_option autoImplicit false

universe u

/-- Modelled from the spec: the generic Keyed Collection (`Collection` in the
source, instantiated as `new Collection([], 'name')` for rooms and keyed by
`client` for players).  Ordered sequence with insertion order preserved;
the key accessor is passed explicitly to each operation. -/
structure Collection (α : Type u) where
  items : List α
deriving DecidableEq

/-- Modelled from the spec: `getById(key)` returns the first element whose
key matches, or an absent marker. -/
def Collection.getById {α : Type u} (key : α → String) (c : Collection α) (k : String) : Option α :=
  c.items.find? (fun x => key x == k)

/-- Modelled from the spec: `add(item)` inserts at the end and returns `true`,
or returns `false` without mutating when an element with the same key is
already present. -/
def Collection.add {α : Type u} (key : α → String) (c : Collection α) (x : α) :
    Collection α × Bool :=
  if (c.getById key (key x)).isSome then (c, false)
  else (⟨c.items ++ [x]⟩, true)

/-- Modelled from the spec: `remove(item)` removes the first element with a
matching key and returns `true`, or returns `false` when none matches. -/
def Collection.remove {α : Type u} (key : α → String) (c : Collection α) (x : α) :
    Collection α × Bool :=
  if (c.getById key (key x)).isSome then
    (⟨c.items.eraseP (fun y => key y == key x)⟩, true)
  else (c, false)

/-- In-place reference mutation made explicit: the element with the key of
`x` (the mutated object) is replaced by `x` at its position.  This is how a
JavaScript handler that mutates an object held inside a collection is
rendered in a pure embedding. -/
def Collection.replace {α : Type u} (key : α → String) (c : Collection α) (x : α) :
    Collection α :=
  ⟨c.items.map (fun y => if key y == key x then x else y)⟩

/-- Modelled from the spec: a `Player` is identified by its `client` id and
carries a display name, a mutable color and a mutable ready flag. -/
structure Player where
  client : String
  name : String
  color : String
  ready : Bool
deriving DecidableEq

/-- Key accessor used for players (the `client` id). -/
def Player.key (p : Player) : String := p.client

/-- Modelled from the spec: `setColor(color)` is an unconditional overwrite. -/
def Player.setColor (p : Player) (c : String) : Player :=
  { p with color := c }

/-- Modelled from the spec: `toggleReady(ready)` sets the ready flag to the
value supplied by the server event (a set, not an XOR-toggle). -/
def Player.toggleReady (p : Player) (r : Bool) : Player :=
  { p with ready := r }

/-- Modelled from the spec: a `Room` has a unique `name` and an ordered keyed
collection of players (keyed by `client`). -/
structure Room where
  name : String
  players : Collection Player
deriving DecidableEq

/-- Key accessor used for rooms (the `name`). -/
def Room.key (r : Room) : String := r.name

/-- Modelled from the spec: a freshly constructed room has an empty player
collection. -/
def Room.new (name : String) : Room :=
  ⟨name, ⟨[]⟩⟩

/-- Modelled from the spec: `addPlayer` delegates to the room's player
collection; a duplicate add is a no-op returning `false`. -/
def Room.addPlayer (r : Room) (p : Player) : Room × Bool :=
  let res := r.players.add Player.key p
  ({ r with players := res.1 }, res.2)

/-- Modelled from the spec: `removePlayer` delegates to the room's player
collection; removing an absent player returns `false`. -/
def Room.removePlayer (r : Room) (p : Player) : Room × Bool :=
  let res := r.players.remove Player.key p
  ({ r with players := res.1 }, res.2)

/-- A consumer-facing notification emitted by the repository, identified by
its event name together with the room name and player client id carried in
its payload (when present). -/
structure Emit where
  event : String
  room : Option String
  player : Option String
deriving DecidableEq

/-- Payload of an outbound transport request. -/
inductive OutPayload where
  | empty
  | nameField (name : String)
  | roomField (room : String)
  | colorFields (room : String) (player : String) (color : String)
  | readyFields (room : String) (player : String)
deriving DecidableEq

/-- An outbound message sent to the transport via `client.io.emit`, with its
event name, payload shape and whether a completion callback was attached. -/
structure OutMessage where
  event : String
  payload : OutPayload
  hasCallback : Bool
deriving DecidableEq

/-- State of the `RoomRepository`: the `synced` flag and the keyed collection
of mirrored rooms (`new Collection([], 'name')`). -/
structure RoomRepository where
  synced : Bool
  rooms : Collection Room
deriving DecidableEq

/-- A fresh repository as built by the constructor: `synced = false`, empty
room collection. -/
def RoomRepository.init : RoomRepository :=
  ⟨false, ⟨[]⟩⟩

/-- Payload of an inbound `room:new` event: a name and a snapshot player
list of `{client, name, color}` records. -/
structure PlayerData where
  client : String
  name : String
  color : String
deriving DecidableEq

/-- Payload of `room:new`. -/
structure NewRoomData where
  name : String
  players : List PlayerData
deriving DecidableEq

/-- Payload of `room:join`: `{room: name, player: {client, name, color}}`. -/
structure JoinRoomData where
  room : String
  player : PlayerData
deriving DecidableEq

/-- Payload of `room:leave`: `{room: name, player: client}`. -/
structure LeaveRoomData where
  room : String
  player : String
deriving DecidableEq

/-- Payload of `room:player:color`: `{room, player, color}`. -/
structure PlayerColorData where
  room : String
  player : String
  color : String
deriving DecidableEq

/-- Payload of `room:player:ready`: `{room, player, ready}`. -/
structure PlayerReadyData where
  room : String
  player : String
  ready : Bool
deriving DecidableEq

/-- Payload of `room:close` and `room:start`: `{room: name}`. -/
structure RoomNameData where
  room : String
deriving DecidableEq

/-- Build the `Player` the handlers construct from a `{client, name, color}`
payload record (`new Player(client, name, color)`); the ready flag starts
false. -/
def PlayerData.toPlayer (d : PlayerData) : Player :=
  ⟨d.client, d.name, d.color, false⟩

/-- The mutated room replaces the stale object at its position in the room
collection (JavaScript reference semantics made explicit). -/
def RoomRepository.updateRoom (repo : RoomRepository) (r : Room) : RoomRepository :=
  { repo with rooms := repo.rooms.replace Room.key r }

/-- Embedding of `RoomRepository.prototype.setSynced`: when `synced` is still
false, set it to true and emit the one-shot `synced` signal; otherwise do
nothing. -/
def RoomRepository.setSynced (repo : RoomRepository) : RoomRepository × List Emit :=
  if repo.synced then (repo, [])
  else ({ repo with synced := true }, [⟨"synced", none, none⟩])

/-- The room built by `onNewRoom` before insertion: `new Room(data.name)`,
then `addPlayer(new Player ...)` for `i` from `players.length - 1` down
to `0`, i.e. the snapshot list is traversed in reverse order. -/
def NewRoomData.buildRoom (d : NewRoomData) : Room :=
  d.players.reverse.foldl (fun r pd => (r.addPlayer pd.toPlayer).1) (Room.new d.name)

/-- Embedding of `RoomRepository.prototype.onNewRoom`: build the room from
the payload, add it to the room collection, emit `room:new` only when the
add succeeded, then run `setSynced`. -/
def RoomRepository.onNewRoom (repo : RoomRepository) (d : NewRoomData) :
    RoomRepository × List Emit :=
  let room := d.buildRoom
  let res := repo.rooms.add Room.key room
  let addEmits := if res.2 then [Emit.mk "room:new" (some room.name) none] else []
  let syncRes := RoomRepository.setSynced { repo with rooms := res.1 }
  (syncRes.1, addEmits ++ syncRes.2)

/-- Embedding of `RoomRepository.prototype.onCloseRoom`: look the room up by
name; when found and removal succeeds, emit `room:close`. -/
def RoomRepository.onCloseRoom (repo : RoomRepository) (d : RoomNameData) :
    RoomRepository × List Emit :=
  match repo.rooms.getById Room.key d.room with
  | none => (repo, [])
  | some room =>
    let res := repo.rooms.remove Room.key room
    if res.2 then
      ({ repo with rooms := res.1 }, [⟨"room:close", some room.name, none⟩])
    else (repo, [])

/-- Embedding of `RoomRepository.prototype.onJoinRoom`: look the room up by
name, build a new `Player` from the payload, and when the room exists and
the player add succeeds, emit the global `room:join` and the room-scoped
`room:join:<name>` notifications. -/
def RoomRepository.onJoinRoom (repo : RoomRepository) (d : JoinRoomData) :
    RoomRepository × List Emit :=
  match repo.rooms.getById Room.key d.room with
  | none => (repo, [])
  | some room =>
    let player := d.player.toPlayer
    let res := room.addPlayer player
    if res.2 then
      (repo.updateRoom res.1,
        [⟨"room:join", some room.name, some player.client⟩,
         ⟨"room:join:" ++ room.name, some room.name, some player.client⟩])
    else (repo, [])

/-- Embedding of `RoomRepository.prototype.onLeaveRoom`: the player is looked
up inside the named room; when room and player both exist and removal
succeeds, emit the global `room:leave` and the room-scoped
`room:leave:<name>` notifications. -/
def RoomRepository.onLeaveRoom (repo : RoomRepository) (d : LeaveRoomData) :
    RoomRepository × List Emit :=
  match repo.rooms.getById Room.key d.room with
  | none => (repo, [])
  | some room =>
    match room.players.getById Player.key d.player with
    | none => (repo, [])
    | some player =>
      let res := room.removePlayer player
      if res.2 then
        (repo.updateRoom res.1,
          [⟨"room:leave", some room.name, some player.client⟩,
           ⟨"room:leave:" ++ room.name, some room.name, some player.client⟩])
      else (repo, [])

/-- Embedding of `RoomRepository.prototype.onPlayerColor`: the player is
looked up inside the named room; when found, its color is overwritten and
the room-scoped `room:player:color:<name>` notification is emitted. -/
def RoomRepository.onPlayerColor (repo : RoomRepository) (d : PlayerColorData) :
    RoomRepository × List Emit :=
  match repo.rooms.getById Room.key d.room with
  | none => (repo, [])
  | some room =>
    match room.players.getById Player.key d.player with
    | none => (repo, [])
    | some player =>
      let player2 := player.setColor d.color
      let room2 := { room with players := room.players.replace Player.key player2 }
      (repo.updateRoom room2,
        [⟨"room:player:color:" ++ room.name, some room.name, some player2.client⟩])

/-- Embedding of `RoomRepository.prototype.onPlayerReady`: the player is
looked up inside the named room; when found, its ready flag is set to the
payload's boolean and the room-scoped `room:player:ready:<name>`
notification is emitted. -/
def RoomRepository.onPlayerReady (repo : RoomRepository) (d : PlayerReadyData) :
    RoomRepository × List Emit :=
  match repo.rooms.getById Room.key d.room with
  | none => (repo, [])
  | some room =>
    match room.players.getById Player.key d.player with
    | none => (repo, [])
    | some player =>
      let player2 := player.toggleReady d.ready
      let room2 := { room with players := room.players.replace Player.key player2 }
      (repo.updateRoom room2,
        [⟨"room:player:ready:" ++ room.name, some room.name, some player2.client⟩])

/-- Embedding of `RoomRepository.prototype.onWarmupRoom`: look the room up;
when found, emit the global `room:start` and room-scoped `room:start:<name>`
notifications; no state is touched. -/
def RoomRepository.onWarmupRoom (repo : RoomRepository) (d : RoomNameData) :
    RoomRepository × List Emit :=
  match repo.rooms.getById Room.key d.room with
  | none => (repo, [])
  | some room =>
    (repo, [⟨"room:start", some room.name, none⟩,
            ⟨"room:start:" ++ room.name, some room.name, none⟩])

/-- Embedding of `RoomRepository.prototype.create`: one outbound
`room:create {name}` request, no local state change. -/
def RoomRepository.create (repo : RoomRepository) (name : String) (cb : Bool) :
    RoomRepository × List OutMessage :=
  (repo, [⟨"room:create", OutPayload.nameField name, cb⟩])

/-- Embedding of `RoomRepository.prototype.join`: one outbound
`room:join {room}` request, no local state change. -/
def RoomRepository.join (repo : RoomRepository) (room : String) (cb : Bool) :
    RoomRepository × List OutMessage :=
  (repo, [⟨"room:join", OutPayload.roomField room, cb⟩])

/-- Embedding of `RoomRepository.prototype.addPlayer`: one outbound
`room:player:add {name}` request, no local state change. -/
def RoomRepository.addPlayer (repo : RoomRepository) (name : String) (cb : Bool) :
    RoomRepository × List OutMessage :=
  (repo, [⟨"room:player:add", OutPayload.nameField name, cb⟩])

/-- Embedding of `RoomRepository.prototype.leave`: one outbound `room:leave`
request carrying only the optional callback, no local state change. -/
def RoomRepository.leave (repo : RoomRepository) (cb : Bool) :
    RoomRepository × List OutMessage :=
  (repo, [⟨"room:leave", OutPayload.empty, cb⟩])

/-- Embedding of `RoomRepository.prototype.setColor`: one outbound
`room:color {room, player, color}` request, no local state change. -/
def RoomRepository.setColor (repo : RoomRepository) (room player color : String) (cb : Bool) :
    RoomRepository × List OutMessage :=
  (repo, [⟨"room:color", OutPayload.colorFields room player color, cb⟩])

/-- Embedding of `RoomRepository.prototype.setReady`: one outbound
`room:ready {room, player}` request, no local state change. -/
def RoomRepository.setReady (repo : RoomRepository) (room player : String) (cb : Bool) :
    RoomRepository × List OutMessage :=
  (repo, [⟨"room:ready", OutPayload.readyFields room player, cb⟩])

/-- Embedding of `RoomRepository.prototype.refresh`: reset `synced` to false
and replace the room collection with a fresh empty one.  The trailing
outbound emit in the source references the undefined variables `room` and
`callback` and raises a ReferenceError at runtime, after the two state
mutations have taken effect; it is rendered as an error result. -/
def RoomRepository.refresh (repo : RoomRepository) :
    RoomRepository × Except String OutMessage :=
  ({ repo with synced := false, rooms := ⟨[]⟩ },
   Except.error "ReferenceError: room is not defined")

/-! ### Helper lemmas about the keyed collection -/

theorem Collection.getById_key {α : Type u} (key : α → String) (c : Collection α) (k : String)
    (x : α) (h : c.getById key k = some x) : key x = k := by
  have := List.find?_some h
  simpa using this

theorem Collection.add_of_none {α : Type u} (key : α → String) (c : Collection α) (x : α)
    (h : c.getById key (key x) = none) :
    c.add key x = (⟨c.items ++ [x]⟩, true) := by
  simp [Collection.add, h]

theorem Collection.add_of_some {α : Type u} (key : α → String) (c : Collection α) (x y : α)
    (h : c.getById key (key x) = some y) :
    c.add key x = (c, false) := by
  simp [Collection.add, h]

theorem Collection.getById_push {α : Type u} (key : α → String) (c : Collection α) (x : α)
    (k : String) (h : c.getById key k = none) :
    Collection.getById key ⟨c.items ++ [x]⟩ k = if key x == k then some x else none := by
  simp only [Collection.getById] at h ⊢
  rw [List.find?_append, h]
  simp

theorem Collection.filter_of_none {α : Type u} (key : α → String) (c : Collection α)
    (k : String) (h : c.getById key k = none) :
    c.items.filter (fun x => key x == k) = [] := by
  simp only [Collection.getById, List.find?_eq_none] at h
  simpa using h

theorem find?_map_replace {α : Type u} (key : α → String) (l : List α) (x : α) (k : String)
    (hk : key x = k) (hsome : (l.find? (fun y => key y == k)).isSome) :
    (l.map (fun y => if key y == key x then x else y)).find? (fun y => key y == k) = some x := by
  subst hk
  induction l with
  | nil => simp at hsome
  | cons hd tl ih =>
    by_cases hhd : (key hd == key x) = true
    · rw [List.map_cons, if_pos hhd]
      exact List.find?_cons_of_pos _ (by simp)
    · rw [List.map_cons, if_neg hhd,
        List.find?_cons_of_neg (p := fun y => key y == key x) (a := hd) _ hhd]
      rw [List.find?_cons_of_neg (p := fun y => key y == key x) (a := hd) _ hhd] at hsome
      exact ih hsome

theorem Collection.getById_replace {α : Type u} (key : α → String) (c : Collection α) (x : α)
    (k : String) (hk : key x = k) (hsome : (c.getById key k).isSome) :
    (c.replace key x).getById key k = some x := by
  simp only [Collection.getById, Collection.replace] at hsome ⊢
  exact find?_map_replace key c.items x k hk hsome

/-! ### Helper lemmas about building a room from a snapshot -/

theorem foldl_addPlayer_name (l : List PlayerData) (r : Room) :
    (l.foldl (fun r pd => (r.addPlayer pd.toPlayer).1) r).name = r.name := by
  induction l generalizing r with
  | nil => rfl
  | cons hd tl ih => rw [List.foldl_cons, ih]; rfl

theorem NewRoomData.buildRoom_name (d : NewRoomData) : d.buildRoom.name = d.name :=
  foldl_addPlayer_name _ _

theorem foldl_addPlayer_items (l : List PlayerData) (r : Room)
    (hnodup : (l.map PlayerData.client).Nodup)
    (hfresh : ∀ pd ∈ l, r.players.getById Player.key pd.client = none) :
    (l.foldl (fun r pd => (r.addPlayer pd.toPlayer).1) r).players.items
      = r.players.items ++ l.map PlayerData.toPlayer := by
  induction l generalizing r with
  | nil => simp
  | cons hd tl ih =>
    have hfhd : r.players.getById Player.key hd.client = none := hfresh hd (by simp)
    have hadd : r.players.add Player.key hd.toPlayer
        = (⟨r.players.items ++ [hd.toPlayer]⟩, true) :=
      Collection.add_of_none Player.key r.players hd.toPlayer hfhd
    have hr2 : (r.addPlayer hd.toPlayer).1
        = { r with players := ⟨r.players.items ++ [hd.toPlayer]⟩ } := by
      simp [Room.addPlayer, hadd]
    have hmem : hd.client ∉ tl.map PlayerData.client := (List.nodup_cons.mp hnodup).1
    have hfresh' : ∀ pd ∈ tl,
        Collection.getById Player.key ⟨r.players.items ++ [hd.toPlayer]⟩ pd.client = none := by
      intro pd hpd
      rw [Collection.getById_push Player.key r.players hd.toPlayer pd.client
        (hfresh pd (List.mem_cons_of_mem _ hpd))]
      have hne : hd.client ≠ pd.client := by
        intro hEq
        exact hmem (hEq ▸ List.mem_map_of_mem PlayerData.client hpd)
      simp [Player.key, PlayerData.toPlayer, hne]
    rw [List.foldl_cons, hr2, ih _ (List.nodup_cons.mp hnodup).2 hfresh']
    simp

theorem NewRoomData.buildRoom_items (d : NewRoomData)
    (h : (d.players.map PlayerData.client).Nodup) :
    d.buildRoom.players.items = (d.players.map PlayerData.toPlayer).reverse := by
  unfold NewRoomData.buildRoom
  rw [foldl_addPlayer_items]
  · simp [Room.new]
  · simpa using h
  · intro pd _
    rfl

/-! ### Claim theorems -/

/-- C5: `refresh()` sets the synced flag to false and replaces the room
collection with a new empty collection, regardless of the prior state. -/
theorem claim_C5 (repo : RoomRepository) :
    (repo.refresh).1.synced = false ∧ (repo.refresh).1.rooms = ⟨[]⟩ :=
  ⟨rfl, rfl⟩

/-- C6: each outbound request operation (create, join, addPlayer, leave,
setColor, setReady) emits exactly one transport message carrying its payload
and optional callback, and leaves the repository state (synced flag and room
collection, hence every room's player list) unchanged. -/
theorem claim_C6 (repo : RoomRepository) (n r p c : String) (cb : Bool) :
    repo.create n cb = (repo, [⟨"room:create", OutPayload.nameField n, cb⟩]) ∧
    repo.join r cb = (repo, [⟨"room:join", OutPayload.roomField r, cb⟩]) ∧
    repo.addPlayer n cb = (repo, [⟨"room:player:add", OutPayload.nameField n, cb⟩]) ∧
    repo.leave cb = (repo, [⟨"room:leave", OutPayload.empty, cb⟩]) ∧
    repo.setColor r p c cb = (repo, [⟨"room:color", OutPayload.colorFields r p c, cb⟩]) ∧
    repo.setReady r p cb = (repo, [⟨"room:ready", OutPayload.readyFields r p, cb⟩]) :=
  ⟨rfl, rfl, rfl, rfl, rfl, rfl⟩

/-- C8: the `room:start` handler never mutates state; it emits the global
`room:start` and the room-scoped `room:start:<name>` notifications exactly
when the named room exists, and nothing otherwise. -/
theorem claim_C8 (repo : RoomRepository) (d : RoomNameData) :
    (repo.onWarmupRoom d).1 = repo ∧
    (repo.rooms.getById Room.key d.room = none → (repo.onWarmupRoom d).2 = []) ∧
    (∀ r, repo.rooms.getById Room.key d.room = some r →
      (repo.onWarmupRoom d).2 =
        [⟨"room:start", some r.name, none⟩,
         ⟨"room:start:" ++ r.name, some r.name, none⟩]) := by
  refine ⟨?_, ?_, ?_⟩
  · unfold RoomRepository.onWarmupRoom
    cases repo.rooms.getById Room.key d.room <;> rfl
  · intro h
    simp [RoomRepository.onWarmupRoom, h]
  · intro r h
    simp [RoomRepository.onWarmupRoom, h]

/-- Witness for C8 at a concrete state holding one room named "lobby". -/
theorem claim_C8_witness :
    ((RoomRepository.mk true ⟨[Room.mk "lobby" ⟨[]⟩]⟩).onWarmupRoom ⟨"lobby"⟩).1
        = RoomRepository.mk true ⟨[Room.mk "lobby" ⟨[]⟩]⟩ ∧
    ((RoomRepository.mk true ⟨[Room.mk "lobby" ⟨[]⟩]⟩).onWarmupRoom ⟨"lobby"⟩).2
        = [⟨"room:start", some "lobby", none⟩,
           ⟨"room:start:" ++ "lobby", some "lobby", none⟩] :=
  ⟨(claim_C8 (RoomRepository.mk true ⟨[Room.mk "lobby" ⟨[]⟩]⟩) ⟨"lobby"⟩).1,
   (claim_C8 (RoomRepository.mk true ⟨[Room.mk "lobby" ⟨[]⟩]⟩) ⟨"lobby"⟩).2.2
     (Room.mk "lobby" ⟨[]⟩) (by decide)⟩

/-- C4: a `room:leave` event naming an absent room, or a player absent from
the named room, mutates nothing and emits nothing; when both exist the
removal succeeds and the global `room:leave` and room-scoped
`room:leave:<name>` notifications both fire. -/
theorem claim_C4 (repo : RoomRepository) (d : LeaveRoomData) :
    (repo.rooms.getById Room.key d.room = none → repo.onLeaveRoom d = (repo, [])) ∧
    (∀ room, repo.rooms.getById Room.key d.room = some room →
      room.players.getById Player.key d.player = none → repo.onLeaveRoom d = (repo, [])) ∧
    (∀ room player, repo.rooms.getById Room.key d.room = some room →
      room.players.getById Player.key d.player = some player →
      (repo.onLeaveRoom d).2 =
        [⟨"room:leave", some room.name, some player.client⟩,
         ⟨"room:leave:" ++ room.name, some room.name, some player.client⟩]) := by
  refine ⟨?_, ?_, ?_⟩
  · intro h
    simp [RoomRepository.onLeaveRoom, h]
  · intro room hr hp
    simp [RoomRepository.onLeaveRoom, hr, hp]
  · intro room player hr hp
    have hkey : Player.key player = d.player :=
      Collection.getById_key Player.key room.players d.player player hp
    have hrem : room.players.remove Player.key player
        = (⟨room.players.items.eraseP (fun y => Player.key y == Player.key player)⟩, true) := by
      unfold Collection.remove
      rw [hkey, hp]
      simp
    simp [RoomRepository.onLeaveRoom, hr, hp, Room.removePlayer, hrem]

/-- Witness for C4: one room "lobby" holding player "c1"; the leave event
fires both notifications. -/
theorem claim_C4_witness :
    ((RoomRepository.mk true ⟨[Room.mk "lobby" ⟨[Player.mk "c1" "Alice" "red" false]⟩]⟩).onLeaveRoom
        ⟨"lobby", "c1"⟩).2 =
      [⟨"room:leave", some "lobby", some "c1"⟩,
       ⟨"room:leave:" ++ "lobby", some "lobby", some "c1"⟩] :=
  (claim_C4 (RoomRepository.mk true ⟨[Room.mk "lobby" ⟨[Player.mk "c1" "Alice" "red" false]⟩]⟩)
      ⟨"lobby", "c1"⟩).2.2
    (Room.mk "lobby" ⟨[Player.mk "c1" "Alice" "red" false]⟩)
    (Player.mk "c1" "Alice" "red" false) (by decide) (by decide)

/-- C10: a `room:new` snapshot player list is traversed from the last index
down to the first, so (for a snapshot with pairwise distinct client keys)
the new room's insertion-ordered player collection is the reverse of the
order the server sent. -/
theorem claim_C10 (d : NewRoomData) (h : (d.players.map PlayerData.client).Nodup) :
    d.buildRoom.players.items = (d.players.map PlayerData.toPlayer).reverse :=
  NewRoomData.buildRoom_items d h

/-- Witness for C10 at a two-player snapshot. -/
theorem claim_C10_witness :
    (([PlayerData.mk "c1" "A" "red", PlayerData.mk "c2" "B" "blue"].map
        PlayerData.client).Nodup) ∧
    (NewRoomData.mk "lobby"
        [PlayerData.mk "c1" "A" "red", PlayerData.mk "c2" "B" "blue"]).buildRoom.players.items
      = ([PlayerData.mk "c1" "A" "red", PlayerData.mk "c2" "B" "blue"].map
          PlayerData.toPlayer).reverse :=
  ⟨by decide,
   claim_C10 ⟨"lobby", [PlayerData.mk "c1" "A" "red", PlayerData.mk "c2" "B" "blue"]⟩ (by decide)⟩

theorem onNewRoom_fresh (repo : RoomRepository) (d : NewRoomData)
    (h0 : repo.rooms.getById Room.key d.name = none) :
    (repo.onNewRoom d).1.rooms = ⟨repo.rooms.items ++ [d.buildRoom]⟩ ∧
    (repo.onNewRoom d).1.synced = true ∧
    (repo.onNewRoom d).2 = ⟨"room:new", some d.name, none⟩ ::
      (if repo.synced then [] else [⟨"synced", none, none⟩]) := by
  have hb : Room.key d.buildRoom = d.name := NewRoomData.buildRoom_name d
  have hadd : repo.rooms.add Room.key d.buildRoom
      = (⟨repo.rooms.items ++ [d.buildRoom]⟩, true) := by
    apply Collection.add_of_none
    rw [hb]
    exact h0
  refine ⟨?_, ?_, ?_⟩ <;>
    cases hs : repo.synced <;>
      simp [RoomRepository.onNewRoom, hadd, RoomRepository.setSynced, hs, hb,
        NewRoomData.buildRoom_name]

/-- C1: delivering two `room:new` events with the same name to a state not
yet holding that room: the first emits one `room:new` notification, the
second call is a complete no-op (state unchanged, nothing emitted), and the
final collection holds exactly one room with that name. -/
theorem claim_C1 (repo : RoomRepository) (d1 d2 : NewRoomData) (hname : d2.name = d1.name)
    (h0 : repo.rooms.getById Room.key d1.name = none) :
    ((repo.onNewRoom d1).2.filter (fun e => e.event == "room:new")
       = [⟨"room:new", some d1.name, none⟩]) ∧
    ((repo.onNewRoom d1).1.onNewRoom d2 = ((repo.onNewRoom d1).1, [])) ∧
    ((((repo.onNewRoom d1).1.onNewRoom d2).1.rooms.items.filter
        (fun r => Room.key r == d1.name)).length = 1) := by
  obtain ⟨hrooms1, hsync1, hemits1⟩ := onNewRoom_fresh repo d1 h0
  have hb1 : Room.key d1.buildRoom = d1.name := NewRoomData.buildRoom_name d1
  have hb2 : Room.key d2.buildRoom = d1.name := (NewRoomData.buildRoom_name d2).trans hname
  have hget2 : Collection.getById Room.key ⟨repo.rooms.items ++ [d1.buildRoom]⟩ d1.name
      = some d1.buildRoom := by
    rw [Collection.getById_push Room.key repo.rooms d1.buildRoom d1.name h0, hb1]
    simp
  have hgen : ∀ s : RoomRepository, s.rooms = ⟨repo.rooms.items ++ [d1.buildRoom]⟩ →
      s.synced = true → s.onNewRoom d2 = (s, []) := by
    intro s hsr hss
    have hadd2 : s.rooms.add Room.key d2.buildRoom = (s.rooms, false) := by
      apply Collection.add_of_some Room.key _ _ d1.buildRoom
      rw [hb2, hsr]
      exact hget2
    simp [RoomRepository.onNewRoom, hadd2, RoomRepository.setSynced, hss]
    rw [← hss]
  have hno2 : (repo.onNewRoom d1).1.onNewRoom d2 = ((repo.onNewRoom d1).1, []) :=
    hgen _ hrooms1 hsync1
  refine ⟨?_, hno2, ?_⟩
  · rw [hemits1]
    cases hs : repo.synced <;> simp
  · rw [hno2, hrooms1]
    simp only [List.filter_append]
    rw [Collection.filter_of_none Room.key repo.rooms d1.name h0]
    simp [hb1]

/-- Witness for C1: two identical `room:new` events on a fresh repository. -/
theorem claim_C1_witness :
    ((RoomRepository.init.onNewRoom ⟨"lobby", []⟩).2.filter (fun e => e.event == "room:new")
       = [⟨"room:new", some "lobby", none⟩]) ∧
    ((RoomRepository.init.onNewRoom ⟨"lobby", []⟩).1.onNewRoom ⟨"lobby", []⟩
       = ((RoomRepository.init.onNewRoom ⟨"lobby", []⟩).1, [])) ∧
    ((((RoomRepository.init.onNewRoom ⟨"lobby", []⟩).1.onNewRoom ⟨"lobby", []⟩).1.rooms.items.filter
        (fun r => Room.key r == "lobby")).length = 1) :=
  claim_C1 RoomRepository.init ⟨"lobby", []⟩ ⟨"lobby", []⟩ rfl (by decide)

/-- C3: on a not-yet-synced state, a `room:new` event flips `synced` to true
and emits the one-shot `synced` signal exactly once; on any already-synced
state, a `room:new` event keeps `synced` true and never re-emits `synced`. -/
theorem claim_C3 (repo : RoomRepository) (d : NewRoomData) (h : repo.synced = false) :
    ((repo.onNewRoom d).1.synced = true) ∧
    ((repo.onNewRoom d).2.filter (fun e => e.event == "synced") = [⟨"synced", none, none⟩]) ∧
    (∀ (s : RoomRepository) (d2 : NewRoomData), s.synced = true →
      (s.onNewRoom d2).1.synced = true ∧
      (s.onNewRoom d2).2.filter (fun e => e.event == "synced") = []) := by
  refine ⟨?_, ?_, ?_⟩
  · rcases hadd : repo.rooms.add Room.key d.buildRoom with ⟨c2, b⟩
    cases b <;> simp [RoomRepository.onNewRoom, hadd, RoomRepository.setSynced, h]
  · rcases hadd : repo.rooms.add Room.key d.buildRoom with ⟨c2, b⟩
    cases b <;> simp [RoomRepository.onNewRoom, hadd, RoomRepository.setSynced, h]
  · intro s d2 hs
    rcases hadd : s.rooms.add Room.key d2.buildRoom with ⟨c2, b⟩
    cases b <;> simp [RoomRepository.onNewRoom, hadd, RoomRepository.setSynced, hs]

/-- Witness for C3: a fresh repository receiving two `room:new` events. -/
theorem claim_C3_witness :
    ((RoomRepository.init.onNewRoom ⟨"lobby", []⟩).1.synced = true) ∧
    ((RoomRepository.init.onNewRoom ⟨"lobby", []⟩).2.filter (fun e => e.event == "synced")
       = [⟨"synced", none, none⟩]) ∧
    (∀ (s : RoomRepository) (d2 : NewRoomData), s.synced = true →
      (s.onNewRoom d2).1.synced = true ∧
      (s.onNewRoom d2).2.filter (fun e => e.event == "synced") = []) :=
  claim_C3 RoomRepository.init ⟨"lobby", []⟩ rfl

/-- C2: a `room:join` event for an existing room adds the payload player
exactly when no player with that client key is already present; both the
global and the room-scoped notifications fire exactly when the add occurred,
and a duplicate delivery is a complete no-op leaving exactly one such
player. -/
theorem claim_C2 (repo : RoomRepository) (d : JoinRoomData) (room : Room)
    (hr : repo.rooms.getById Room.key d.room = some room)
    (hp : room.players.getById Player.key d.player.client = none) :
    ((repo.onJoinRoom d).2 =
      [⟨"room:join", some room.name, some d.player.client⟩,
       ⟨"room:join:" ++ room.name, some room.name, some d.player.client⟩]) ∧
    (∃ room2, (repo.onJoinRoom d).1.rooms.getById Room.key d.room = some room2 ∧
      (room2.players.items.filter (fun q => Player.key q == d.player.client)).length = 1) ∧
    ((repo.onJoinRoom d).1.onJoinRoom d = ((repo.onJoinRoom d).1, [])) ∧
    (∀ (s : RoomRepository) (r : Room) (q : Player),
      s.rooms.getById Room.key d.room = some r →
      r.players.getById Player.key d.player.client = some q →
      s.onJoinRoom d = (s, [])) := by
  have hkr : Room.key room = d.room := Collection.getById_key _ _ _ _ hr
  have hadd : room.players.add Player.key d.player.toPlayer
      = (⟨room.players.items ++ [d.player.toPlayer]⟩, true) :=
    Collection.add_of_none _ _ _ hp
  have hjoin : repo.onJoinRoom d =
      (RoomRepository.mk repo.synced (repo.rooms.replace Room.key
          (Room.mk room.name ⟨room.players.items ++ [d.player.toPlayer]⟩)),
       [⟨"room:join", some room.name, some d.player.client⟩,
        ⟨"room:join:" ++ room.name, some room.name, some d.player.client⟩]) := by
    simp only [PlayerData.toPlayer] at hadd
    simp [RoomRepository.onJoinRoom, hr, Room.addPlayer, hadd, RoomRepository.updateRoom,
      PlayerData.toPlayer]
  have hget1 : (repo.onJoinRoom d).1.rooms.getById Room.key d.room
      = some (Room.mk room.name ⟨room.players.items ++ [d.player.toPlayer]⟩) := by
    rw [hjoin]
    exact Collection.getById_replace Room.key repo.rooms _ d.room hkr (by rw [hr]; rfl)
  have hget2 : (Room.mk room.name ⟨room.players.items ++ [d.player.toPlayer]⟩
      ).players.getById Player.key d.player.client = some d.player.toPlayer := by
    show Collection.getById Player.key ⟨room.players.items ++ [d.player.toPlayer]⟩
      d.player.client = some d.player.toPlayer
    rw [Collection.getById_push Player.key room.players d.player.toPlayer d.player.client hp]
    simp [Player.key, PlayerData.toPlayer]
  have hdup : ∀ (s : RoomRepository) (r : Room) (q : Player),
      s.rooms.getById Room.key d.room = some r →
      r.players.getById Player.key d.player.client = some q →
      s.onJoinRoom d = (s, []) := by
    intro s r q hr' hp'
    have hadd' : r.players.add Player.key d.player.toPlayer = (r.players, false) :=
      Collection.add_of_some _ _ _ q hp'
    simp [RoomRepository.onJoinRoom, hr', Room.addPlayer, hadd']
  refine ⟨by rw [hjoin], ⟨_, hget1, ?_⟩, hdup _ _ _ hget1 hget2, hdup⟩
  show ((room.players.items ++ [d.player.toPlayer]).filter
    (fun q => Player.key q == d.player.client)).length = 1
  rw [List.filter_append, Collection.filter_of_none Player.key room.players d.player.client hp]
  simp [Player.key, PlayerData.toPlayer]

/-- Witness for C2: joining player "c1" into the existing empty room
"lobby", twice. -/
theorem claim_C2_witness :
    (((RoomRepository.mk true ⟨[Room.mk "lobby" ⟨[]⟩]⟩).onJoinRoom
        ⟨"lobby", ⟨"c1", "Alice", "red"⟩⟩).2 =
      [⟨"room:join", some "lobby", some "c1"⟩,
       ⟨"room:join:" ++ "lobby", some "lobby", some "c1"⟩]) ∧
    (∃ room2, ((RoomRepository.mk true ⟨[Room.mk "lobby" ⟨[]⟩]⟩).onJoinRoom
        ⟨"lobby", ⟨"c1", "Alice", "red"⟩⟩).1.rooms.getById Room.key "lobby" = some room2 ∧
      (room2.players.items.filter (fun q => Player.key q == "c1")).length = 1) ∧
    (((RoomRepository.mk true ⟨[Room.mk "lobby" ⟨[]⟩]⟩).onJoinRoom
        ⟨"lobby", ⟨"c1", "Alice", "red"⟩⟩).1.onJoinRoom ⟨"lobby", ⟨"c1", "Alice", "red"⟩⟩
      = (((RoomRepository.mk true ⟨[Room.mk "lobby" ⟨[]⟩]⟩).onJoinRoom
          ⟨"lobby", ⟨"c1", "Alice", "red"⟩⟩).1, [])) :=
  ⟨(claim_C2 (RoomRepository.mk true ⟨[Room.mk "lobby" ⟨[]⟩]⟩)
      ⟨"lobby", ⟨"c1", "Alice", "red"⟩⟩ (Room.mk "lobby" ⟨[]⟩) (by decide) (by decide)).1,
   (claim_C2 (RoomRepository.mk true ⟨[Room.mk "lobby" ⟨[]⟩]⟩)
      ⟨"lobby", ⟨"c1", "Alice", "red"⟩⟩ (Room.mk "lobby" ⟨[]⟩) (by decide) (by decide)).2.1,
   (claim_C2 (RoomRepository.mk true ⟨[Room.mk "lobby" ⟨[]⟩]⟩)
      ⟨"lobby", ⟨"c1", "Alice", "red"⟩⟩ (Room.mk "lobby" ⟨[]⟩) (by decide) (by decide)).2.2.1⟩

theorem onPlayerColor_found (repo : RoomRepository) (d : PlayerColorData)
    (room : Room) (player : Player)
    (hr : repo.rooms.getById Room.key d.room = some room)
    (hp : room.players.getById Player.key d.player = some player) :
    room.name = d.room ∧
    repo.onPlayerColor d =
      (RoomRepository.mk repo.synced (repo.rooms.replace Room.key
          (Room.mk room.name (room.players.replace Player.key (player.setColor d.color)))),
       [⟨"room:player:color:" ++ d.room, some d.room, some player.client⟩]) ∧
    (RoomRepository.mk repo.synced (repo.rooms.replace Room.key
        (Room.mk room.name (room.players.replace Player.key (player.setColor d.color))))
      ).rooms.getById Room.key d.room
        = some (Room.mk room.name (room.players.replace Player.key (player.setColor d.color))) ∧
    (Room.mk room.name (room.players.replace Player.key (player.setColor d.color))
      ).players.getById Player.key d.player = some (player.setColor d.color) := by
  have hkr : room.name = d.room := Collection.getById_key Room.key repo.rooms d.room room hr
  have hkp : player.client = d.player := Collection.getById_key Player.key room.players d.player player hp
  refine ⟨hkr, ?_, ?_, ?_⟩
  · simp [RoomRepository.onPlayerColor, hr, hp, RoomRepository.updateRoom, Player.setColor, hkr]
  · exact Collection.getById_replace Room.key repo.rooms _ d.room hkr (by rw [hr]; rfl)
  · exact Collection.getById_replace Player.key room.players _ d.player hkp (by rw [hp]; rfl)

theorem onPlayerReady_found (repo : RoomRepository) (d : PlayerReadyData)
    (room : Room) (player : Player)
    (hr : repo.rooms.getById Room.key d.room = some room)
    (hp : room.players.getById Player.key d.player = some player) :
    room.name = d.room ∧
    repo.onPlayerReady d =
      (RoomRepository.mk repo.synced (repo.rooms.replace Room.key
          (Room.mk room.name (room.players.replace Player.key (player.toggleReady d.ready)))),
       [⟨"room:player:ready:" ++ d.room, some d.room, some player.client⟩]) ∧
    (RoomRepository.mk repo.synced (repo.rooms.replace Room.key
        (Room.mk room.name (room.players.replace Player.key (player.toggleReady d.ready))))
      ).rooms.getById Room.key d.room
        = some (Room.mk room.name (room.players.replace Player.key (player.toggleReady d.ready))) ∧
    (Room.mk room.name (room.players.replace Player.key (player.toggleReady d.ready))
      ).players.getById Player.key d.player = some (player.toggleReady d.ready) := by
  have hkr : room.name = d.room := Collection.getById_key Room.key repo.rooms d.room room hr
  have hkp : player.client = d.player := Collection.getById_key Player.key room.players d.player player hp
  refine ⟨hkr, ?_, ?_, ?_⟩
  · simp [RoomRepository.onPlayerReady, hr, hp, RoomRepository.updateRoom, Player.toggleReady, hkr]
  · exact Collection.getById_replace Room.key repo.rooms _ d.room hkr (by rw [hr]; rfl)
  · exact Collection.getById_replace Player.key room.players _ d.player hkp (by rw [hp]; rfl)

/-- C7: the `room:player:ready` handler overwrites the player's ready flag
with the boolean carried by the event — after an event with value `b1` the
flag is `b1`, and after a following event with value `b2` it is `b2`,
regardless of the previous flag (a set, not an XOR-toggle). -/
theorem claim_C7 (repo : RoomRepository) (rn pc : String) (b1 b2 : Bool)
    (room : Room) (player : Player)
    (hr : repo.rooms.getById Room.key rn = some room)
    (hp : room.players.getById Player.key pc = some player) :
    ∃ r1 p1,
      (repo.onPlayerReady ⟨rn, pc, b1⟩).1.rooms.getById Room.key rn = some r1 ∧
      r1.players.getById Player.key pc = some p1 ∧
      p1.ready = b1 ∧
      ∃ r2 p2,
        ((repo.onPlayerReady ⟨rn, pc, b1⟩).1.onPlayerReady ⟨rn, pc, b2⟩).1.rooms.getById
            Room.key rn = some r2 ∧
        r2.players.getById Player.key pc = some p2 ∧
        p2.ready = b2 := by
  obtain ⟨hn1, heq1, hg1, hg2⟩ := onPlayerReady_found repo ⟨rn, pc, b1⟩ room player hr hp
  refine ⟨Room.mk room.name (room.players.replace Player.key (player.toggleReady b1)),
    player.toggleReady b1, by rw [heq1]; exact hg1, hg2, rfl, ?_⟩
  obtain ⟨hn2, heq2, hg1', hg2'⟩ := onPlayerReady_found
    ((repo.onPlayerReady ⟨rn, pc, b1⟩).1) ⟨rn, pc, b2⟩
    (Room.mk room.name (room.players.replace Player.key (player.toggleReady b1)))
    (player.toggleReady b1) (by rw [heq1]; exact hg1) hg2
  exact ⟨_, _, by rw [heq2]; exact hg1', hg2', rfl⟩

/-- Witness for C7: player "c1" in room "lobby" receives ready:true then
ready:false. -/
theorem claim_C7_witness :
    ∃ r1 p1,
      ((RoomRepository.mk true ⟨[Room.mk "lobby" ⟨[Player.mk "c1" "Alice" "red" false]⟩]⟩
        ).onPlayerReady ⟨"lobby", "c1", true⟩).1.rooms.getById Room.key "lobby" = some r1 ∧
      r1.players.getById Player.key "c1" = some p1 ∧
      p1.ready = true ∧
      ∃ r2 p2,
        (((RoomRepository.mk true ⟨[Room.mk "lobby" ⟨[Player.mk "c1" "Alice" "red" false]⟩]⟩
          ).onPlayerReady ⟨"lobby", "c1", true⟩).1.onPlayerReady
            ⟨"lobby", "c1", false⟩).1.rooms.getById Room.key "lobby" = some r2 ∧
        r2.players.getById Player.key "c1" = some p2 ∧
        p2.ready = false :=
  claim_C7 (RoomRepository.mk true ⟨[Room.mk "lobby" ⟨[Player.mk "c1" "Alice" "red" false]⟩]⟩)
    "lobby" "c1" true false (Room.mk "lobby" ⟨[Player.mk "c1" "Alice" "red" false]⟩)
    (Player.mk "c1" "Alice" "red" false) (by decide) (by decide)

/-- C9: the player-color and player-ready handlers mutate and notify exactly
when the named room exists and a player with the given client key exists in
that room's own collection; a missing room or missing player is a silent
no-op, and when the room-scoped notification fires its scope is the named
room's name and the mutated player is found inside that room afterwards. -/
theorem claim_C9 (repo : RoomRepository) (dc : PlayerColorData) (dr : PlayerReadyData) :
    ((repo.rooms.getById Room.key dc.room = none → repo.onPlayerColor dc = (repo, [])) ∧
     (∀ room, repo.rooms.getById Room.key dc.room = some room →
        room.players.getById Player.key dc.player = none →
        repo.onPlayerColor dc = (repo, [])) ∧
     (∀ room player, repo.rooms.getById Room.key dc.room = some room →
        room.players.getById Player.key dc.player = some player →
        room.name = dc.room ∧
        (repo.onPlayerColor dc).2
          = [⟨"room:player:color:" ++ dc.room, some dc.room, some player.client⟩] ∧
        ∃ room2, (repo.onPlayerColor dc).1.rooms.getById Room.key dc.room = some room2 ∧
          room2.players.getById Player.key dc.player = some (player.setColor dc.color))) ∧
    ((repo.rooms.getById Room.key dr.room = none → repo.onPlayerReady dr = (repo, [])) ∧
     (∀ room, repo.rooms.getById Room.key dr.room = some room →
        room.players.getById Player.key dr.player = none →
        repo.onPlayerReady dr = (repo, [])) ∧
     (∀ room player, repo.rooms.getById Room.key dr.room = some room →
        room.players.getById Player.key dr.player = some player →
        room.name = dr.room ∧
        (repo.onPlayerReady dr).2
          = [⟨"room:player:ready:" ++ dr.room, some dr.room, some player.client⟩] ∧
        ∃ room2, (repo.onPlayerReady dr).1.rooms.getById Room.key dr.room = some room2 ∧
          room2.players.getById Player.key dr.player = some (player.toggleReady dr.ready))) := by
  refine ⟨⟨?_, ?_, ?_⟩, ⟨?_, ?_, ?_⟩⟩
  · intro h
    simp [RoomRepository.onPlayerColor, h]
  · intro room hr hp
    simp [RoomRepository.onPlayerColor, hr, hp]
  · intro room player hr hp
    obtain ⟨hn, heq, hg1, hg2⟩ := onPlayerColor_found repo dc room player hr hp
    exact ⟨hn, by rw [heq], ⟨_, by rw [heq]; exact hg1, hg2⟩⟩
  · intro h
    simp [RoomRepository.onPlayerReady, h]
  · intro room hr hp
    simp [RoomRepository.onPlayerReady, hr, hp]
  · intro room player hr hp
    obtain ⟨hn, heq, hg1, hg2⟩ := onPlayerReady_found repo dr room player hr hp
    exact ⟨hn, by rw [heq], ⟨_, by rw [heq]; exact hg1, hg2⟩⟩

/-- Witness for C9: both handlers fire their room-scoped notification for
player "c1" in room "lobby". -/
theorem claim_C9_witness :
    ((RoomRepository.mk true ⟨[Room.mk "lobby" ⟨[Player.mk "c1" "Alice" "red" false]⟩]⟩
        ).onPlayerColor ⟨"lobby", "c1", "blue"⟩).2
      = [⟨"room:player:color:" ++ "lobby", some "lobby", some "c1"⟩] ∧
    ((RoomRepository.mk true ⟨[Room.mk "lobby" ⟨[Player.mk "c1" "Alice" "red" false]⟩]⟩
        ).onPlayerReady ⟨"lobby", "c1", true⟩).2
      = [⟨"room:player:ready:" ++ "lobby", some "lobby", some "c1"⟩] :=
  ⟨((claim_C9 (RoomRepository.mk true ⟨[Room.mk "lobby" ⟨[Player.mk "c1" "Alice" "red" false]⟩]⟩)
      ⟨"lobby", "c1", "blue"⟩ ⟨"lobby", "c1", true⟩).1.2.2
      (Room.mk "lobby" ⟨[Player.mk "c1" "Alice" "red" false]⟩)
      (Player.mk "c1" "Alice" "red" false) (by decide) (by decide)).2.1,
   ((claim_C9 (RoomRepository.mk true ⟨[Room.mk "lobby" ⟨[Player.mk "c1" "Alice" "red" false]⟩]⟩)
      ⟨"lobby", "c1", "blue"⟩ ⟨"lobby", "c1", true⟩).2.2.2
      (Room.mk "lobby" ⟨[Player.mk "c1" "Alice" "red" false]⟩)
      (Player.mk "c1" "Alice" "red" false) (by decide) (by decide)).2.1⟩
